import Mathlib

/-!
Shallow embedding of `code_whisperer_with_system.py` and proofs about it.

The script manages conversational context for an AI assistant: it classifies
queries into topical categories via a keyword table and named-entity chunks,
stores per-(session, category) key-point summaries, stores interactions, and
assembles a prompt subject to an 8192-word budget.

Python strings are Lean `String`s; the Python string operations used by the
script (`str.lower`, `str.split`, the `in` substring test) are implemented
over `List Char` so that every definition evaluates inside the kernel.
The external NLP capabilities (`nltk.word_tokenize` and the
`ne_chunk ∘ pos_tag ∘ word_tokenize` named-entity pipeline) and the external
text generator (`openai.Completion.create`) are parameters of the embedded
functions: the repository's own logic is defined over their outputs.
-/

/-- Character-level lowering of a string, modelling Python `str.lower()`
(they agree on ASCII text, which is all the script's data contains). -/
def lowerData (s : String) : List Char := s.data.map Char.toLower

/-- `lowerData` packaged back into a string. -/
def pyLower (s : String) : String := String.mk (lowerData s)

/-- Boolean list-prefix test, building block of the substring test. -/
def leadsList : List Char → List Char → Bool
  | [], _ => true
  | _ :: _, [] => false
  | a :: as, b :: bs => a == b && leadsList as bs

/-- Boolean contiguous-subsequence test: `containsSeq n h` is true iff `n`
occurs contiguously inside `h`.  Models Python `n in h` on strings. -/
def containsSeq (n : List Char) : List Char → Bool
  | [] => n.isEmpty
  | c :: rest => leadsList n (c :: rest) || containsSeq n rest

/-- Case-insensitive substring test: models `k.lower() in e.lower()`. -/
def substrCI (k e : String) : Bool := containsSeq (lowerData k) (lowerData e)

/-- Splits a character list into maximal whitespace-free runs; the
accumulator holds the current word reversed.  Models Python `str.split()`
with no argument. -/
def wordsAux : List Char → List Char → List String
  | [], [] => []
  | [], cur => [String.mk cur.reverse]
  | ch :: rest, cur =>
    if ch.isWhitespace then
      (if cur.isEmpty then wordsAux rest [] else String.mk cur.reverse :: wordsAux rest [])
    else wordsAux rest (ch :: cur)

/-- Python `s.split()`: whitespace-delimited words, empties discarded. -/
def whitespaceSplit (s : String) : List String := wordsAux s.data []

/-- `len(s.split())`, the word count used by the budget check
(source line 245). -/
def word_count (s : String) : Nat := (whitespaceSplit s).length

/-- Python `sep.join(xs)`. -/
def joinSep (sep : String) : List String → String
  | [] => ""
  | [x] => x
  | x :: y :: xs => x ++ sep ++ joinSep sep (y :: xs)

/-- Adding an element to a Python `set`, modelled as a duplicate-free list:
only membership in the result is ever used by the script. -/
def insertSet (rel : List String) (c : String) : List String :=
  if c ∈ rel then rel else rel ++ [c]

/-- The category-keyword table: a `dict` from category name to keyword list,
in insertion order (Python dicts iterate in insertion order, which the
classifier's first-match-wins scan depends on). -/
abbrev Table := List (String × List String)

/-- The initial `category_keywords` table (source lines 83-92). -/
def category_keywords : Table :=
  [ ("requirements",
     ["requirements", "specifications", "needs", "criteria", "goals", "objectives", "user story"]),
    ("architecture and design",
     ["architecture", "design", "structure", "blueprint", "framework", "model", "diagram", "pattern"]),
    ("implementation",
     ["implementation", "coding", "development", "function", "method", "procedure", "class", "module", "algorithm"]),
    ("testing",
     ["testing", "tests", "validation", "verification", "unit test", "integration test", "test case", "test plan", "QA"]),
    ("external APIs",
     ["API", "external service", "integration", "third-party service", "REST", "SOAP", "webhook", "endpoint", "API key"]),
    ("deployment",
     ["deployment", "release", "environment", "production", "staging", "CI/CD", "pipeline", "rollout", "rollback"]),
    ("documentation",
     ["documentation", "doc", "README", "guide", "manual", "comments", "annotations", "spec"]),
    ("project management",
     ["project management", "timeline", "milestones", "tasks", "issues", "tickets", "backlog", "sprint", "agile", "kanban", "scrum"]) ]

/-- The `system_prompt` string (source lines 94-108); the claims treat its
content opaquely, it is transcribed for fidelity of `combined_context`. -/
def system_prompt : String :=
  "\nYou are an advanced AI assistant specialized in software development. Your role is to assist users with various aspects of software engineering, including but not limited to:\n- Requirements gathering and analysis\n- Software architecture and design\n- Implementation and coding in multiple programming languages\n- Testing and quality assurance\n- Integration with external APIs and services\n- Deployment and CI/CD practices\n- Documentation and technical writing\n- Project management and agile methodologies\n\nWhen providing responses, ensure they are detailed, technically accurate, and relevant to the user's query. Use appropriate software development terminology and examples where necessary. Stay focused on the context of software engineering and aim to provide practical and actionable advice.\n\nIf the user introduces new topics or specific technologies, incorporate those into the conversation and adapt your responses accordingly. Your goal is to be a comprehensive and knowledgeable resource for software development-related queries.\n"

/-- One element of the sequence produced by
`ne_chunk(pos_tag(word_tokenize(text)))`: either a named-entity subtree
(carrying the word of each of its leaves; the POS tags are discarded by the
script) or a plain tagged token. -/
inductive ChunkItem where
  | tree (tokens : List String)
  | tok (word : String)
deriving DecidableEq

/-- The loop of `get_continuous_chunks` (source lines 123-135), transcribed
exactly: `cur` is `current_chunk`, `acc` is `continuous_chunk`.  Note that
the final `cur` is discarded when the input ends, and `cur` is only reset
when a freshly joined entity was not already present in `acc`. -/
def gcc_loop : List ChunkItem → List String → List String → List String
  | [], _cur, acc => acc
  | ChunkItem.tree toks :: rest, cur, acc =>
      gcc_loop rest (cur ++ [joinSep " " toks]) acc
  | ChunkItem.tok _ :: rest, cur, acc =>
      if cur = [] then gcc_loop rest cur acc
      else
        let named_entity := joinSep " " cur
        if named_entity ∈ acc then gcc_loop rest cur acc
        else gcc_loop rest [] (acc ++ [named_entity])

/-- `get_continuous_chunks` (source lines 121-135), over the output of the
external NER pipeline. -/
def get_continuous_chunks (chunked : List ChunkItem) : List String :=
  gcc_loop chunked [] []

/-- The keyword-membership pass of `determine_relevant_categories`
(source lines 142-145): for every category and every keyword, if the
lowered keyword is among the query tokens, add the category. -/
def tokenMatchStep (t : Table) (tokens : List String) : List String :=
  t.foldl
    (fun rel entry =>
      entry.2.foldl
        (fun rel2 k => if pyLower k ∈ tokens then insertSet rel2 entry.1 else rel2)
        rel)
    []

/-- The first category (in table order) one of whose keywords is a
case-insensitive substring of the entity (source lines 151-155, the scan
with `break`); `none` when no category matches. -/
def findMatchCat : Table → String → Option String
  | [], _ => none
  | (c', kws) :: rest, e =>
      if kws.any (fun k => substrCI k e) then some c' else findMatchCat rest e

/-- `category_keywords.setdefault('dynamic', []).append(entity)` on an
insertion-ordered dict: append to the first entry with the given key,
or add a new entry at the end. -/
def setdefaultAppend : Table → String → String → Table
  | [], c, e => [(c, [e])]
  | (c', kws) :: rest, c, e =>
      if c' = c then (c', kws ++ [e]) :: rest
      else (c', kws) :: setdefaultAppend rest c e

/-- The entity pass of `determine_relevant_categories` (source lines
148-159): each entity either marks its first matching category relevant, or
is appended under `"dynamic"` with `"dynamic"` marked relevant. -/
def entityStep : Table → List String → List String → Table × List String
  | t, [], rel => (t, rel)
  | t, e :: es, rel =>
    match findMatchCat t e with
    | some cat => entityStep t es (insertSet rel cat)
    | none => entityStep (setdefaultAppend t "dynamic" e) es (insertSet rel "dynamic")

/-- `determine_relevant_categories` (source lines 137-161), parameterized by
the external tokenizer (`nltk.word_tokenize`) and the external NER pipeline
(`ne_chunk ∘ pos_tag ∘ word_tokenize`); returns the updated table (the
Python function mutates the global `category_keywords`) together with the
relevant-category set. -/
def determine_relevant_categories (tokenize : String → List String)
    (nerChunk : String → List ChunkItem) (t : Table) (query : String) :
    Table × List String :=
  let tokens := tokenize (pyLower query)
  let rel := tokenMatchStep t tokens
  let entities := get_continuous_chunks (nerChunk query)
  entityStep t entities rel

/-- First-match lookup in the category table (a dict access). -/
def lookupKw : Table → String → Option (List String)
  | [], _ => none
  | (c', kws) :: rest, c => if c' = c then some kws else lookupKw rest c

/-- One row of the `key_points` table, keyed by (session_id, category).
Modelled from the spec: the database schema is not in the source file; per
spec section 6 the table has a unique constraint on the pair, so the store
is an association list with at most one row per key. -/
abbrev KPStore := List ((String × String) × String)

/-- `store_key_points` (source lines 179-185): `INSERT ... ON CONFLICT
(session_id, category) DO UPDATE SET summary=excluded.summary`, i.e. an
upsert on the unique pair. -/
def store_key_points : KPStore → String → String → String → KPStore
  | [], s, c, summary => [((s, c), summary)]
  | (k, v) :: rest, s, c, summary =>
      if k = (s, c) then (k, summary) :: rest
      else (k, v) :: store_key_points rest s c summary

/-- `get_key_points` (source lines 187-192): the stored summary for the
pair, or `""` when no row exists (`fetchone()` returning `None`). -/
def get_key_points : KPStore → String → String → String
  | [], _, _ => ""
  | (k, v) :: rest, s, c => if k = (s, c) then v else get_key_points rest s c

/-- `update_key_points` (source lines 194-197): read, append the new points
after a line break when the current summary is non-empty (Python truthiness
of the string), write back. -/
def update_key_points (db : KPStore) (s c new_points : String) : KPStore :=
  let current_summary := get_key_points db s c
  let updated_summary :=
    if current_summary = "" then new_points else current_summary ++ "\n" ++ new_points
  store_key_points db s c updated_summary

/-- One row of the `interactions` table: (session_id, user_input,
model_response).  Modelled from the spec: the schema is not in the source
file; per spec section 6 the timestamp column defaults to now, so recency
coincides with insertion order and the row list is kept in insertion
order. -/
abbrev InteractionRow := String × String × String

/-- `store_interaction` (source lines 172-177): insert one row. -/
def store_interaction (db : List InteractionRow) (session_id user_input model_response : String) :
    List InteractionRow :=
  db ++ [(session_id, user_input, model_response)]

/-- `retrieve_context` (source lines 163-170): the session's rows ordered by
timestamp descending (newest first), limited, projected to
(user_input, model_response). -/
def retrieve_context (db : List InteractionRow) (session_id : String) (limit : Nat) :
    List (String × String) :=
  (((db.filter (fun r => r.1 == session_id)).reverse.take limit).map (fun r => (r.2.1, r.2.2)))

/-- The transcript rendering `"\n".join(f"User: {ui}\nBot: {mr}" ...)`
(source line 241): the retrieved list is rendered in the order given,
without reversing it. -/
def render_transcript (ctx : List (String × String)) : String :=
  joinSep "\n" (ctx.map (fun p => "User: " ++ p.1 ++ "\nBot: " ++ p.2))

/-- `combined_context` (source line 241). -/
def combined_context (key_points : String) (ctx : List (String × String)) : String :=
  system_prompt ++ "\n\n" ++ key_points ++ "\n\n" ++ render_transcript ctx

/-- Observable effects of the tail of the example workflow: the prompts
passed to `generate_response`, the `interactions` table afterwards, and
what was printed. -/
structure TurnResult where
  gen_calls : List String
  interactions : List InteractionRow
  printed : List String
deriving DecidableEq

/-- The budget check and turn tail (source lines 242-250), parameterized by
the external generator: build the prompt, and either generate, print and
store, or print the fixed rejection message. -/
def run_example_turn (gen : String → String) (db : List InteractionRow)
    (session_id combined user_input : String) : TurnResult :=
  let prompt := combined ++ "\nUser: " ++ user_input ++ "\nBot:"
  if word_count combined + word_count user_input ≤ 8192 then
    let response := gen prompt
    { gen_calls := [prompt],
      interactions := store_interaction db session_id user_input response,
      printed := [response] }
  else
    { gen_calls := [], interactions := db, printed := ["Context size exceeds the token limit."] }

/-! ### Helper lemmas -/

theorem insertSet_mem_self (rel : List String) (c : String) : c ∈ insertSet rel c := by
  unfold insertSet
  split
  · assumption
  · exact List.mem_append_right _ (List.mem_singleton.mpr rfl)

theorem insertSet_mono {a : String} (rel : List String) (b : String) (h : a ∈ rel) :
    a ∈ insertSet rel b := by
  unfold insertSet
  split
  · exact h
  · exact List.mem_append_left _ h

theorem insertSet_ne_nil (rel : List String) (c : String) : insertSet rel c ≠ [] := by
  unfold insertSet
  split
  · rename_i h
    exact List.ne_nil_of_mem h
  · simp

theorem leadsList_refl (l : List Char) : leadsList l l = true := by
  induction l with
  | nil => rfl
  | cons a as ih => simp [leadsList, ih]

theorem substrCI_self (e : String) : substrCI e e = true := by
  unfold substrCI
  cases h : lowerData e with
  | nil => rfl
  | cons a as => simp [containsSeq, leadsList_refl]

theorem innerFold_mono {a : String} (tokens : List String) (cat : String) :
    ∀ (kws : List String) (rel : List String), a ∈ rel →
      a ∈ kws.foldl (fun rel2 k => if pyLower k ∈ tokens then insertSet rel2 cat else rel2) rel
  | [], _, h => h
  | _ :: kws, rel, h => by
    simp only [List.foldl_cons]
    apply innerFold_mono tokens cat kws
    split
    · exact insertSet_mono rel cat h
    · exact h

theorem innerFold_hit (tokens : List String) (cat : String) :
    ∀ (kws : List String) (rel : List String) (k : String), k ∈ kws → pyLower k ∈ tokens →
      cat ∈ kws.foldl (fun rel2 k => if pyLower k ∈ tokens then insertSet rel2 cat else rel2) rel := by
  intro kws
  induction kws with
  | nil => intro rel k h; exact absurd h (List.not_mem_nil k)
  | cons k0 kws ih =>
    intro rel k hmem htok
    rcases List.mem_cons.mp hmem with h | h
    · subst h
      simp only [List.foldl_cons, if_pos htok]
      exact innerFold_mono tokens cat kws _ (insertSet_mem_self rel cat)
    · simp only [List.foldl_cons]
      exact ih _ k h htok

theorem outerFold_mono {a : String} (tokens : List String) :
    ∀ (t : Table) (rel : List String), a ∈ rel →
      a ∈ t.foldl (fun rel entry =>
            entry.2.foldl (fun rel2 k => if pyLower k ∈ tokens then insertSet rel2 entry.1 else rel2) rel)
          rel
  | [], _, h => h
  | entry :: t, rel, h => by
    simp only [List.foldl_cons]
    exact outerFold_mono tokens t _ (innerFold_mono tokens entry.1 entry.2 rel h)

theorem tokenMatchStep_hit (t : Table) (tokens : List String) (c : String) (kws : List String)
    (k : String) (hmem : (c, kws) ∈ t) (hk : k ∈ kws) (htok : pyLower k ∈ tokens) :
    c ∈ tokenMatchStep t tokens := by
  unfold tokenMatchStep
  have main : ∀ (t' : Table) (rel : List String), (c, kws) ∈ t' →
      c ∈ t'.foldl (fun rel entry =>
            entry.2.foldl (fun rel2 k => if pyLower k ∈ tokens then insertSet rel2 entry.1 else rel2) rel)
          rel := by
    intro t'
    induction t' with
    | nil => intro rel h; exact absurd h (List.not_mem_nil _)
    | cons entry t' ih =>
      intro rel h
      rcases List.mem_cons.mp h with h | h
      · subst h
        simp only [List.foldl_cons]
        exact outerFold_mono tokens t' _ (innerFold_hit tokens c kws rel k hk htok)
      · simp only [List.foldl_cons]
        exact ih _ h
  exact main t [] hmem

theorem entityStep_rel_mono {a : String} :
    ∀ (es : List String) (t : Table) (rel : List String), a ∈ rel →
      a ∈ (entityStep t es rel).2
  | [], _, _, h => h
  | e :: es, t, rel, h => by
    unfold entityStep
    cases hf : findMatchCat t e with
    | some cat => exact entityStep_rel_mono es t _ (insertSet_mono rel cat h)
    | none => exact entityStep_rel_mono es _ _ (insertSet_mono rel "dynamic" h)

theorem entityStep_rel_ne_nil :
    ∀ (es : List String) (t : Table) (rel : List String), rel ≠ [] ∨ es ≠ [] →
      (entityStep t es rel).2 ≠ []
  | [], _, _, h => by
    rcases h with h | h
    · exact h
    · exact absurd rfl h
  | e :: es, t, rel, _ => by
    unfold entityStep
    cases hf : findMatchCat t e with
    | some cat => exact entityStep_rel_ne_nil es t _ (Or.inl (insertSet_ne_nil rel cat))
    | none => exact entityStep_rel_ne_nil es _ _ (Or.inl (insertSet_ne_nil rel "dynamic"))

theorem lookup_setdefaultAppend_ne {c d : String} (hne : c ≠ d) :
    ∀ (t : Table) (e : String), lookupKw (setdefaultAppend t d e) c = lookupKw t c
  | [], e => by
    show lookupKw [(d, [e])] c = none
    simp only [lookupKw]
    rw [if_neg (Ne.symm hne)]
  | (c', kws) :: rest, e => by
    by_cases h : c' = d
    · subst h
      simp only [setdefaultAppend, if_pos rfl, lookupKw]
      rw [if_neg (Ne.symm hne), if_neg (Ne.symm hne)]
    · simp only [setdefaultAppend, if_neg h, lookupKw]
      by_cases h2 : c' = c
      · rw [if_pos h2, if_pos h2]
      · rw [if_neg h2, if_neg h2]
        exact lookup_setdefaultAppend_ne hne rest e

theorem lookup_setdefaultAppend_self :
    ∀ (t : Table) (d e : String),
      lookupKw (setdefaultAppend t d e) d = some ((lookupKw t d).getD [] ++ [e])
  | [], d, e => by simp [setdefaultAppend, lookupKw]
  | (c', kws) :: rest, d, e => by
    by_cases h : c' = d
    · subst h
      simp [setdefaultAppend, lookupKw]
    · simp only [setdefaultAppend, if_neg h, lookupKw, if_neg h]
      exact lookup_setdefaultAppend_self rest d e

theorem entityStep_lookup_ne {c : String} (hne : c ≠ "dynamic") :
    ∀ (es : List String) (t : Table) (rel : List String),
      lookupKw (entityStep t es rel).1 c = lookupKw t c
  | [], _, _ => rfl
  | e :: es, t, rel => by
    unfold entityStep
    cases hf : findMatchCat t e with
    | some cat => exact entityStep_lookup_ne hne es t _
    | none =>
      rw [entityStep_lookup_ne hne es _ _, lookup_setdefaultAppend_ne hne t e]

theorem findMatchCat_none {e : String} :
    ∀ (t : Table), (∀ p ∈ t, ∀ k ∈ p.2, substrCI k e = false) → findMatchCat t e = none
  | [], _ => rfl
  | (c', kws) :: rest, h => by
    have hany : kws.any (fun k => substrCI k e) = false := by
      rw [List.any_eq_false]
      intro k hk
      simp [h (c', kws) (List.mem_cons_self _ _) k hk]
    simp only [findMatchCat, hany]
    rw [if_neg Bool.false_ne_true]
    exact findMatchCat_none rest (fun p hp => h p (List.mem_cons_of_mem _ hp))

theorem findMatchCat_setdefault {e : String} :
    ∀ (t : Table), (∀ p ∈ t, ∀ k ∈ p.2, substrCI k e = false) →
      findMatchCat (setdefaultAppend t "dynamic" e) e = some "dynamic"
  | [], _ => by
    have hone : [e].any (fun k => substrCI k e) = true := by simp [substrCI_self]
    simp only [setdefaultAppend, findMatchCat, hone]
    exact if_pos trivial
  | (c', kws) :: rest, h => by
    have hany : kws.any (fun k => substrCI k e) = false := by
      rw [List.any_eq_false]
      intro k hk
      simp [h (c', kws) (List.mem_cons_self _ _) k hk]
    by_cases hc : c' = "dynamic"
    · subst hc
      have hall : (kws ++ [e]).any (fun k => substrCI k e) = true := by
        simp [List.any_append, substrCI_self]
      simp only [setdefaultAppend, if_pos rfl, findMatchCat, hall]
      exact if_pos trivial
    · simp only [setdefaultAppend, if_neg hc, findMatchCat, hany]
      rw [if_neg Bool.false_ne_true]
      exact findMatchCat_setdefault rest (fun p hp => h p (List.mem_cons_of_mem _ hp))

theorem get_store_key_points :
    ∀ (db : KPStore) (s c x : String), get_key_points (store_key_points db s c x) s c = x
  | [], s, c, x => by simp [store_key_points, get_key_points]
  | (k, v) :: rest, s, c, x => by
    by_cases h : k = (s, c)
    · simp [store_key_points, if_pos h, get_key_points, h]
    · simp only [store_key_points, if_neg h, get_key_points, if_neg h]
      exact get_store_key_points rest s c x

theorem get_key_points_absent :
    ∀ (db : KPStore) (s c : String), (∀ r ∈ db, r.1 ≠ (s, c)) → get_key_points db s c = ""
  | [], _, _, _ => rfl
  | (k, v) :: rest, s, c, h => by
    have hk : k ≠ (s, c) := h (k, v) (List.mem_cons_self _ _)
    simp only [get_key_points, if_neg hk]
    exact get_key_points_absent rest s c (fun r hr => h r (List.mem_cons_of_mem _ hr))

/-- A character list of `n` whitespace-separated one-letter words, used to
exhibit concrete oversized inputs for the budget check. -/
def bigWords : Nat → List Char
  | 0 => []
  | n + 1 => 'x' :: ' ' :: bigWords n

theorem wordsAux_bigWords : ∀ n : Nat, wordsAux (bigWords n) [] = List.replicate n "x"
  | 0 => rfl
  | n + 1 => by
    show wordsAux ('x' :: ' ' :: bigWords n) [] = _
    rw [show wordsAux ('x' :: ' ' :: bigWords n) [] = "x" :: wordsAux (bigWords n) [] from rfl,
      wordsAux_bigWords n]
    rfl

theorem word_count_bigWords (n : Nat) : word_count (String.mk (bigWords n)) = n := by
  show (wordsAux (bigWords n) []).length = n
  rw [wordsAux_bigWords n]
  exact List.length_replicate n "x"

theorem joinSep_cons (sep x : String) (l : List String) :
    joinSep sep (x :: l) = x ++ (if l.isEmpty then "" else sep ++ joinSep sep l) := by
  cases l with
  | nil => simp [joinSep]
  | cons y ys => simp [joinSep, String.append_assoc]

/-! ### Claim theorems -/

/-- C1: for every assembled turn whose combined-context word count plus
user-input word count exceeds 8192, the turn is rejected: the generator is
never invoked, no interaction row is stored, and the fixed message
"Context size exceeds the token limit." is printed instead of a response. -/
theorem budget_overflow_rejects (gen : String → String) (db : List InteractionRow)
    (session_id combined user_input : String)
    (h : 8192 < word_count combined + word_count user_input) :
    (run_example_turn gen db session_id combined user_input).gen_calls = []
    ∧ (run_example_turn gen db session_id combined user_input).interactions = db
    ∧ (run_example_turn gen db session_id combined user_input).printed
        = ["Context size exceeds the token limit."] := by
  simp only [run_example_turn]
  rw [if_neg (by omega : ¬ (word_count combined + word_count user_input ≤ 8192))]
  exact ⟨rfl, rfl, rfl⟩

/-- Witness for C1 at a concrete 8193-word combined context. -/
theorem budget_overflow_rejects_witness :
    (run_example_turn (fun _ => "ok") [] "sid" (String.mk (bigWords 8193)) "hi").gen_calls = []
    ∧ (run_example_turn (fun _ => "ok") [] "sid" (String.mk (bigWords 8193)) "hi").interactions = []
    ∧ (run_example_turn (fun _ => "ok") [] "sid" (String.mk (bigWords 8193)) "hi").printed
        = ["Context size exceeds the token limit."] :=
  budget_overflow_rejects (fun _ => "ok") [] "sid" (String.mk (bigWords 8193)) "hi"
    (by rw [word_count_bigWords]; decide)

/-- C2: for every assembled turn whose combined-context word count plus
user-input word count is at most 8192, the generator is invoked exactly once
on the assembled prompt, exactly one new interaction row is inserted for the
session, and the response is printed. -/
theorem budget_within_generates_and_stores (gen : String → String) (db : List InteractionRow)
    (session_id combined user_input : String)
    (h : word_count combined + word_count user_input ≤ 8192) :
    (run_example_turn gen db session_id combined user_input).gen_calls
        = [combined ++ "\nUser: " ++ user_input ++ "\nBot:"]
    ∧ (run_example_turn gen db session_id combined user_input).interactions
        = db ++ [(session_id, user_input, gen (combined ++ "\nUser: " ++ user_input ++ "\nBot:"))]
    ∧ (run_example_turn gen db session_id combined user_input).printed
        = [gen (combined ++ "\nUser: " ++ user_input ++ "\nBot:")] := by
  simp only [run_example_turn, store_interaction]
  rw [if_pos h]
  exact ⟨rfl, rfl, rfl⟩

/-- Witness for C2 at a concrete small turn. -/
theorem budget_within_generates_and_stores_witness :
    (run_example_turn (fun p => "echo " ++ p) [] "sid" "some context" "hi there").gen_calls
        = ["some context" ++ "\nUser: " ++ "hi there" ++ "\nBot:"]
    ∧ (run_example_turn (fun p => "echo " ++ p) [] "sid" "some context" "hi there").interactions
        = [] ++ [("sid", "hi there",
            (fun p => "echo " ++ p) ("some context" ++ "\nUser: " ++ "hi there" ++ "\nBot:"))]
    ∧ (run_example_turn (fun p => "echo " ++ p) [] "sid" "some context" "hi there").printed
        = [(fun p => "echo " ++ p) ("some context" ++ "\nUser: " ++ "hi there" ++ "\nBot:")] :=
  budget_within_generates_and_stores (fun p => "echo " ++ p) [] "sid" "some context" "hi there"
    (by decide)

/-- Counterexample for C3 as stated: the query "please refine the user
story for login" contains the multi-word keyword "user story" of category
"requirements" (case-insensitively), yet the classifier does not include
"requirements": a multi-word keyword can never equal a single query token,
and the all-lowercase query yields no named entities. -/
theorem keyword_containment_counterexample :
    substrCI "user story" "please refine the user story for login" = true
    ∧ ("user story" ∈ (lookupKw category_keywords "requirements").getD [])
    ∧ "requirements" ∉
        (determine_relevant_categories whitespaceSplit (fun _ => []) category_keywords
          "please refine the user story for login").2 :=
  ⟨by decide, by decide, by decide⟩

/-- C3 (amended): for every query and category C, if some keyword of C
case-folds to one of the tokens of the lowercased query, then the
classifier includes C; keywords that tokenize to several words (such as
"user story") can only contribute through the entity-substring path. -/
theorem keyword_token_match (tokenize : String → List String) (nerChunk : String → List ChunkItem)
    (t : Table) (query : String) (c : String) (kws : List String) (k : String)
    (hmem : (c, kws) ∈ t) (hk : k ∈ kws) (htok : pyLower k ∈ tokenize (pyLower query)) :
    c ∈ (determine_relevant_categories tokenize nerChunk t query).2 := by
  unfold determine_relevant_categories
  exact entityStep_rel_mono _ t _ (tokenMatchStep_hit t _ c kws k hmem hk htok)

/-- Witness for the amended C3: "tests" is a token of the example query, so
"testing" is relevant. -/
theorem keyword_token_match_witness :
    "testing" ∈ (determine_relevant_categories whitespaceSplit (fun _ => []) category_keywords
      "We need more tests for this module").2 :=
  keyword_token_match whitespaceSplit (fun _ => []) category_keywords
    "We need more tests for this module" "testing"
    ((lookupKw category_keywords "testing").getD []) "tests"
    (by decide) (by decide) (by decide)

/-- C4: an extracted entity matching no keyword of any category is appended
under the reserved "dynamic" category, which is marked relevant; a second
call whose query yields the same entity leaves the table unchanged (the
entity now resolves to "dynamic" by the substring scan, so no duplicate
keyword entry is created) and still marks "dynamic" relevant. -/
theorem dynamic_category_lifecycle (tkz1 tkz2 : String → List String)
    (ck1 ck2 : String → List ChunkItem) (t : Table) (q1 q2 entity : String)
    (h1 : get_continuous_chunks (ck1 q1) = [entity])
    (h2 : ∀ p ∈ t, ∀ k ∈ p.2, substrCI k entity = false)
    (h3 : get_continuous_chunks (ck2 q2) = [entity]) :
    "dynamic" ∈ (determine_relevant_categories tkz1 ck1 t q1).2
    ∧ lookupKw (determine_relevant_categories tkz1 ck1 t q1).1 "dynamic"
        = some ((lookupKw t "dynamic").getD [] ++ [entity])
    ∧ (determine_relevant_categories tkz2 ck2
          (determine_relevant_categories tkz1 ck1 t q1).1 q2).1
        = (determine_relevant_categories tkz1 ck1 t q1).1
    ∧ "dynamic" ∈
        (determine_relevant_categories tkz2 ck2
          (determine_relevant_categories tkz1 ck1 t q1).1 q2).2 := by
  have estep : ∀ rel : List String,
      entityStep t [entity] rel
        = (setdefaultAppend t "dynamic" entity, insertSet rel "dynamic") := by
    intro rel
    unfold entityStep
    rw [findMatchCat_none t h2]
    rfl
  have e1 : determine_relevant_categories tkz1 ck1 t q1
      = (setdefaultAppend t "dynamic" entity,
         insertSet (tokenMatchStep t (tkz1 (pyLower q1))) "dynamic") := by
    unfold determine_relevant_categories
    rw [h1, estep]
  have estep2 : ∀ rel : List String,
      entityStep (setdefaultAppend t "dynamic" entity) [entity] rel
        = (setdefaultAppend t "dynamic" entity, insertSet rel "dynamic") := by
    intro rel
    unfold entityStep
    rw [findMatchCat_setdefault t h2]
    rfl
  have e2 : determine_relevant_categories tkz2 ck2 (setdefaultAppend t "dynamic" entity) q2
      = (setdefaultAppend t "dynamic" entity,
         insertSet (tokenMatchStep (setdefaultAppend t "dynamic" entity) (tkz2 (pyLower q2)))
           "dynamic") := by
    unfold determine_relevant_categories
    rw [h3, estep2]
  refine ⟨?_, ?_, ?_, ?_⟩
  · rw [e1]
    exact insertSet_mem_self _ _
  · rw [e1]
    exact lookup_setdefaultAppend_self t "dynamic" entity
  · rw [e1, e2]
  · rw [e1, e2]
    exact insertSet_mem_self _ _

/-- Witness for C4 with the unmatched entity "Vulkan" on the initial table. -/
theorem dynamic_category_lifecycle_witness :
    "dynamic" ∈ (determine_relevant_categories whitespaceSplit
        (fun _ => [ChunkItem.tree ["Vulkan"], ChunkItem.tok "image"]) category_keywords
        "how should we manage Vulkan image buffers").2
    ∧ lookupKw (determine_relevant_categories whitespaceSplit
        (fun _ => [ChunkItem.tree ["Vulkan"], ChunkItem.tok "image"]) category_keywords
        "how should we manage Vulkan image buffers").1 "dynamic"
        = some ((lookupKw category_keywords "dynamic").getD [] ++ ["Vulkan"])
    ∧ (determine_relevant_categories whitespaceSplit
        (fun _ => [ChunkItem.tree ["Vulkan"], ChunkItem.tok "again"])
        (determine_relevant_categories whitespaceSplit
          (fun _ => [ChunkItem.tree ["Vulkan"], ChunkItem.tok "image"]) category_keywords
          "how should we manage Vulkan image buffers").1
        "tell me about Vulkan again").1
        = (determine_relevant_categories whitespaceSplit
            (fun _ => [ChunkItem.tree ["Vulkan"], ChunkItem.tok "image"]) category_keywords
            "how should we manage Vulkan image buffers").1
    ∧ "dynamic" ∈
        (determine_relevant_categories whitespaceSplit
          (fun _ => [ChunkItem.tree ["Vulkan"], ChunkItem.tok "again"])
          (determine_relevant_categories whitespaceSplit
            (fun _ => [ChunkItem.tree ["Vulkan"], ChunkItem.tok "image"]) category_keywords
            "how should we manage Vulkan image buffers").1
          "tell me about Vulkan again").2 :=
  dynamic_category_lifecycle whitespaceSplit whitespaceSplit
    (fun _ => [ChunkItem.tree ["Vulkan"], ChunkItem.tok "image"])
    (fun _ => [ChunkItem.tree ["Vulkan"], ChunkItem.tok "again"])
    category_keywords "how should we manage Vulkan image buffers" "tell me about Vulkan again"
    "Vulkan" (by decide) (by decide) (by decide)

/-- C5: `update_key_points` followed by `get_key_points` yields the prior
summary, a line break, then the new points whenever the prior summary is
non-empty; when no summary is stored, `get_key_points` returns the empty
string and the updated summary is exactly the new points. -/
theorem update_then_get_key_points (db : KPStore) (s c p : String) :
    ((∀ r ∈ db, r.1 ≠ (s, c)) →
      get_key_points db s c = ""
      ∧ get_key_points (update_key_points db s c p) s c = p)
    ∧ (get_key_points db s c ≠ "" →
      get_key_points (update_key_points db s c p) s c
        = get_key_points db s c ++ "\n" ++ p) := by
  constructor
  · intro habs
    have h0 := get_key_points_absent db s c habs
    refine ⟨h0, ?_⟩
    simp only [update_key_points]
    rw [get_store_key_points, if_pos h0]
  · intro hne
    simp only [update_key_points]
    rw [get_store_key_points, if_neg hne]

/-- Witness for C5: an absent row and a populated row. -/
theorem update_then_get_key_points_witness :
    (get_key_points [] "s1" "testing" = ""
      ∧ get_key_points (update_key_points [] "s1" "testing" "pt") "s1" "testing" = "pt")
    ∧ get_key_points
        (update_key_points [(("s1", "testing"), "old")] "s1" "testing" "new") "s1" "testing"
        = get_key_points [(("s1", "testing"), "old")] "s1" "testing" ++ "\n" ++ "new" :=
  ⟨(update_then_get_key_points [] "s1" "testing" "pt").1 (by decide),
   (update_then_get_key_points [(("s1", "testing"), "old")] "s1" "testing" "new").2 (by decide)⟩

/-- C6: two `store_key_points` calls on the same (session, category) pair
followed by `get_key_points` return exactly the second summary: the upsert
replaces rather than appends. -/
theorem store_key_points_overwrites (db : KPStore) (s c s1 s2 : String) :
    get_key_points (store_key_points (store_key_points db s c s1) s c s2) s c = s2 :=
  get_store_key_points _ s c s2

/-- C7 (code bug): `get_continuous_chunks` drops a named-entity chunk at
the very end of the input (first conjunct: one chunk, nothing returned) and
merges the tokens of adjacent distinct chunks into one phrase (second
conjunct); a chunk followed by a non-entity token is extracted as expected
(third conjunct). -/
theorem gcc_trailing_chunk_dropped :
    get_continuous_chunks [ChunkItem.tree ["Vulkan"]] = []
    ∧ get_continuous_chunks
        [ChunkItem.tree ["OpenGL"], ChunkItem.tree ["Vulkan"], ChunkItem.tok "and"]
        = ["OpenGL Vulkan"]
    ∧ get_continuous_chunks [ChunkItem.tree ["Vulkan"], ChunkItem.tok "and"] = ["Vulkan"] :=
  ⟨rfl, rfl, rfl⟩

/-- C8: `retrieve_context` returns at most `limit` pairs; after storing an
interaction, retrieving with a positive limit yields the just-stored pair
first (newest-first) followed by the previous retrieval; the transcript
renders the retrieved list in that same order (the newest pair appears
first and is not reversed), and the combined context embeds that rendered
transcript. -/
theorem retrieve_context_newest_first (db : List InteractionRow) (s ui mr kp : String)
    (n : Nat) (tl : List (String × String)) :
    (∀ limit : Nat, (retrieve_context db s limit).length ≤ limit)
    ∧ retrieve_context (store_interaction db s ui mr) s (n + 1)
        = (ui, mr) :: retrieve_context db s n
    ∧ render_transcript ((ui, mr) :: tl)
        = "User: " ++ ui ++ "\nBot: " ++ mr
          ++ (if tl.isEmpty then "" else "\n" ++ render_transcript tl)
    ∧ combined_context kp ((ui, mr) :: tl)
        = system_prompt ++ "\n\n" ++ kp ++ "\n\n" ++ render_transcript ((ui, mr) :: tl) := by
  refine ⟨?_, ?_, ?_, rfl⟩
  · intro limit
    unfold retrieve_context
    rw [List.length_map, List.length_take]
    exact min_le_left _ _
  · unfold retrieve_context store_interaction
    rw [List.filter_append]
    simp [List.reverse_append, List.take_succ_cons]
  · unfold render_transcript
    rw [List.map_cons, joinSep_cons]
    cases tl with
    | nil => simp
    | cons a l => simp [render_transcript, String.append_assoc]

/-- C9: the classifier never modifies the keyword list of any category
other than "dynamic": for every category name different from "dynamic",
the lookup is identical before and after the call. -/
theorem classifier_preserves_other_categories (tokenize : String → List String)
    (nerChunk : String → List ChunkItem) (t : Table) (query : String) (c : String)
    (h : c ≠ "dynamic") :
    lookupKw (determine_relevant_categories tokenize nerChunk t query).1 c = lookupKw t c := by
  unfold determine_relevant_categories
  exact entityStep_lookup_ne h _ t _

/-- Witness for C9: "testing" keeps its keyword list across a call that
inserts a dynamic entity. -/
theorem classifier_preserves_other_categories_witness :
    lookupKw (determine_relevant_categories whitespaceSplit
        (fun _ => [ChunkItem.tree ["Vulkan"], ChunkItem.tok "buffers"]) category_keywords
        "manage Vulkan buffers").1 "testing"
      = lookupKw category_keywords "testing" :=
  classifier_preserves_other_categories whitespaceSplit
    (fun _ => [ChunkItem.tree ["Vulkan"], ChunkItem.tok "buffers"]) category_keywords
    "manage Vulkan buffers" "testing" (by decide)

/-- C10: whenever `get_continuous_chunks` extracts at least one entity, the
classifier's result set is non-empty, so the caller's all-categories
fall-back can only trigger for queries with no keyword hit and no
entities. -/
theorem entities_force_nonempty_result (tokenize : String → List String)
    (nerChunk : String → List ChunkItem) (t : Table) (query : String)
    (h : get_continuous_chunks (nerChunk query) ≠ []) :
    (determine_relevant_categories tokenize nerChunk t query).2 ≠ [] := by
  unfold determine_relevant_categories
  exact entityStep_rel_ne_nil _ t _ (Or.inr h)

/-- Witness for C10 with one extracted entity. -/
theorem entities_force_nonempty_result_witness :
    (determine_relevant_categories whitespaceSplit
        (fun _ => [ChunkItem.tree ["OpenCL"], ChunkItem.tok "kernels"]) category_keywords
        "tune OpenCL kernels").2 ≠ [] :=
  entities_force_nonempty_result whitespaceSplit
    (fun _ => [ChunkItem.tree ["OpenCL"], ChunkItem.tok "kernels"]) category_keywords
    "tune OpenCL kernels" (by decide)
